import Mathlib

/-!
Verified model of the citizen-reporting backend.

This file gives a shallow embedding of the two core modules,
`backend/aqi/stream.py` (the AQI stream simulator) and
`backend/reports/processor.py` (the report validation pipeline), and proves
the behavioural properties stated about them.

Randomness is injected as explicit parameters: a rational in `[0,1)` stands
for a `random.random()` draw, a `Bool` selecting the first element stands for
`random.choice` on a two-element list, and an arbitrary real stands for a
`random.gauss` draw.  Python float arithmetic is modelled over `ℚ` (over `ℝ`
where `math.exp` is involved); `round(x, 2)` is modelled by rounding to the
nearest multiple of `1/100` (the half-to-even tie behaviour of Python floats
is immaterial to every property proved here).
-/

/-! ## AQI stream simulator (`backend/aqi/stream.py`) -/

inductive Severity where
  | good
  | moderate
  | unhealthySensitive
  | unhealthy
  | veryUnhealthy
  | hazardous
deriving DecidableEq, Repr

/-- Position of a severity level in the documented order
good < moderate < unhealthy-sensitive < unhealthy < very-unhealthy < hazardous. -/
def Severity.rank : Severity → ℕ
  | .good => 0
  | .moderate => 1
  | .unhealthySensitive => 2
  | .unhealthy => 3
  | .veryUnhealthy => 4
  | .hazardous => 5

/-- `AQIStreamSimulator._get_severity`: map an AQI value to its severity category. -/
def get_severity (aqi : ℚ) : Severity :=
  if aqi ≤ 50 then .good
  else if aqi ≤ 100 then .moderate
  else if aqi ≤ 150 then .unhealthySensitive
  else if aqi ≤ 200 then .unhealthy
  else if aqi ≤ 300 then .veryUnhealthy
  else .hazardous

structure CityConfig where
  lat : ℚ
  lng : ℚ
  baseline_aqi : ℚ
  variance : ℚ
  seasonal_factor : ℚ
deriving DecidableEq, Repr

/-- `AQIStreamSimulator.__init__`: the configured cities, in insertion order. -/
def cities : List (String × CityConfig) :=
  [ ("Delhi", ⟨28.6139, 77.2090, 250, 50, 1.3⟩),
    ("Mumbai", ⟨19.0760, 72.8777, 150, 40, 1.1⟩),
    ("Bangalore", ⟨12.9716, 77.5946, 120, 30, 1.05⟩),
    ("Chennai", ⟨13.0827, 80.2707, 110, 35, 1.1⟩),
    ("Kolkata", ⟨22.5726, 88.3639, 180, 45, 1.2⟩),
    ("Hyderabad", ⟨17.3850, 78.4867, 130, 35, 1.05⟩),
    ("Pune", ⟨18.5204, 73.8567, 140, 38, 1.1⟩),
    ("Ahmedabad", ⟨23.0225, 72.5714, 160, 42, 1.15⟩),
    ("Lucknow", ⟨26.8467, 80.9462, 200, 48, 1.25⟩),
    ("Jaipur", ⟨26.9124, 75.7873, 170, 40, 1.2⟩) ]

/-- `AQIStreamSimulator._calculate_realistic_aqi`: baseline, seasonal and
weekend factors combined with the two diurnal traffic peaks and a Gaussian
noise draw (injected as an arbitrary real), clamped to `[0, 500]`. -/
noncomputable def calculate_realistic_aqi (city_data : CityConfig) (hour : ℕ)
    (day_of_week : ℕ) (noise : ℝ) : ℝ :=
  let morning_peak := Real.exp (-(((hour : ℝ) - 9) ^ 2) / 8) * 30
  let evening_peak := Real.exp (-(((hour : ℝ) - 20) ^ 2) / 8) * 35
  let diurnal_factor := morning_peak + evening_peak
  let weekend_factor : ℝ := if day_of_week = 6 then 0.8 else 1.0
  let aqi := (city_data.baseline_aqi : ℝ) * (city_data.seasonal_factor : ℝ) * weekend_factor
    + diurnal_factor + noise
  max 0 (min 500 aqi)

/-- Python `int()` truncation toward zero, on a rational. -/
def pyInt (x : ℚ) : ℤ := if 0 ≤ x then ⌊x⌋ else -⌊-x⌋

/-- One point of `get_history`: the loop offset (`hours_ago` for "24h",
`days_ago` for "7d"; the strftime label derived from it is presentational)
and the truncated AQI value. -/
structure HistoryPoint where
  offset : ℕ
  aqi : ℤ
deriving DecidableEq, Repr

/-- The descending Python `range(n, -1, -1)`: the list `[n, n-1, ..., 0]`. -/
def rangeDesc (n : ℕ) : List ℕ := (List.range (n + 1)).reverse

/-- `AQIStreamSimulator.get_history`.  Each point synthesizes an AQI value
with a fresh noise draw; `aqiAt` injects the float computed at each offset. -/
def get_history (city : String) (time_range : String) (aqiAt : ℕ → ℚ) :
    Except String (List HistoryPoint) :=
  if (cities.find? (fun p => p.1 == city)).isNone then
    .error "City not found"
  else if time_range = "24h" then
    .ok ((rangeDesc 24).map (fun hours_ago => ⟨hours_ago, pyInt (aqiAt hours_ago)⟩))
  else if time_range = "7d" then
    .ok ((rangeDesc 7).map (fun days_ago => ⟨days_ago, pyInt (aqiAt days_ago)⟩))
  else
    .error ("Invalid time range: " ++ time_range ++ ". Use 24h or 7d")

structure CitySnapshot where
  name : String
  lat : ℚ
  lng : ℚ
  aqi : ℤ
  severity : Severity
deriving DecidableEq, Repr

/-- One entry of `get_all_cities`, built from a configured city and the float
AQI synthesized for it on this call. -/
def snapshotOf (p : (String × CityConfig) × ℚ) : CitySnapshot :=
  { name := p.1.1, lat := p.1.2.lat, lng := p.1.2.lng,
    aqi := pyInt p.2, severity := get_severity p.2 }

/-- `AQIStreamSimulator.get_all_cities`: one snapshot per configured city (a
fresh noise draw each, injected through `aqis`), then
`cities_data.sort(key=aqi, reverse=True)` — a stable descending sort,
modelled by `List.mergeSort` with the reversed comparison. -/
def get_all_cities (cs : List (String × CityConfig)) (aqis : List ℚ) : List CitySnapshot :=
  ((cs.zip aqis).map snapshotOf).mergeSort (fun a b => decide (b.aqi ≤ a.aqi))

/-! ## Report processor (`backend/reports/processor.py`) -/

/-- A stored report record (`report_record` in `process_submission`).
`yolo_confidence` models the `confidence` field of the optional
`yolo_result`; the rest of that payload is opaque to the processor. -/
structure Report where
  report_id : String
  category : String
  latitude : ℚ
  longitude : ℚ
  location_name : String
  yolo_confidence : Option ℚ
  submitted_at : String
  validation_status : String
  validation_reason : String
  confidence_score : ℚ
  verified_at : Option String
  reward_coins : ℤ
deriving DecidableEq, Repr

/-- `ReportProcessor.__init__`: the in-memory store.  The Python dict is
modelled as an association list where insertion shadows older bindings and
lookups take the newest binding. -/
structure ProcState where
  reports : List (String × Report)
  validation_queue : List String
deriving DecidableEq, Repr

def findReport (reports : List (String × Report)) (id : String) : Option Report :=
  (reports.find? (fun p => p.1 == id)).map (·.2)

/-- `ReportProcessor.confidence_thresholds`. -/
def confidence_thresholds (k : String) : ℚ :=
  if k = "high" then 0.75
  else if k = "medium" then 0.50
  else 0.30

/-- The random draws consumed by one `_make_validation_decision` call:
`u` for the branch `random.random()`, `choiceFirst` for the two-element
`random.choice`, and `hotspot_u` for the `random.random()` inside
`_is_known_hotspot`. -/
structure DecisionDraws where
  u : ℚ
  choiceFirst : Bool
  hotspot_u : ℚ
deriving DecidableEq, Repr

/-- `ReportProcessor._is_known_hotspot`: true with 30% probability. -/
def is_known_hotspot (lat lng : ℚ) (hotspot_u : ℚ) : Bool :=
  decide (hotspot_u < 0.3)

/-- Python `round(x, 2)`: round to the nearest multiple of `1/100`. -/
def round2 (x : ℚ) : ℚ := round (x * 100) / 100

structure Decision where
  status : String
  reason : String
  confidence : ℚ
deriving DecidableEq, Repr

/-- `ReportProcessor._make_validation_decision`.  Note the high band: the
code runs `random.choice(["verified", "needs-review"])` only when
`random.random() < 0.7`, else `"needs-review"` (and analogously in the low
band with 0.6 and `"rejected"`). -/
def make_validation_decision (category : String) (yolo_confidence : ℚ)
    (lat lng : ℚ) (d : DecisionDraws) : Decision :=
  let p :=
    if yolo_confidence ≥ confidence_thresholds "high" then
      (if d.u < 0.7 then (if d.choiceFirst then "verified" else "needs-review")
       else "needs-review",
       "High AI confidence. Visual indicators strongly match reported category.")
    else if yolo_confidence ≥ confidence_thresholds "medium" then
      ("needs-review",
       "Moderate AI confidence. Requires additional verification for accuracy.")
    else
      (if d.u < 0.6 then (if d.choiceFirst then "needs-review" else "rejected")
       else "rejected",
       "Low AI confidence. Visual conditions unclear or ambiguous.")
  let decision := p.1
  let reason := p.2
  let confidence := yolo_confidence
  let hotspot := is_known_hotspot lat lng d.hotspot_u
  let reason := if hotspot then reason ++ " Location matches known environmental concern area."
    else reason
  let confidence := if hotspot then min 1.0 (confidence + 0.1) else confidence
  let initial_status := if decision = "verified" then "validating" else decision
  { status := initial_status, reason := reason, confidence := round2 confidence }

/-- `ReportProcessor._get_status_message` (emoji prefixes omitted). -/
def get_status_message (status : String) : String :=
  if status = "validating" then "AI validation in progress. This usually takes a few seconds."
  else if status = "verified" then
    "Report verified! Your contribution helps monitor environmental conditions."
  else if status = "needs-review" then
    "Report queued for expert review. This may take a few minutes."
  else if status = "rejected" then
    "Unable to verify this report. Consider resubmitting with clearer evidence."
  else "Processing your report..."

/-- The submission payload consumed by `process_submission`.
`yolo_confidence` is `none` when no `yolo_result` was attached. -/
structure SubmissionInput where
  category : String
  latitude : ℚ
  longitude : ℚ
  location_name : String
  yolo_confidence : Option ℚ
  timestamp : String
deriving DecidableEq, Repr

/-- The response of `process_submission` (the random
`estimated_verification_time`, a purely presentational duration, is not
modelled). -/
structure SubmitResponse where
  report_id : String
  status : String
  validation_status : String
  message : String
deriving DecidableEq, Repr

/-- `ReportProcessor.process_submission`.  `report_id` injects the
timestamp-and-uuid identifier produced by `_generate_report_id`. -/
def process_submission (st : ProcState) (report_id : String)
    (input : SubmissionInput) (d : DecisionDraws) : ProcState × SubmitResponse :=
  let yolo_confidence := input.yolo_confidence.getD 0.0
  let vd := make_validation_decision input.category yolo_confidence
    input.latitude input.longitude d
  let record : Report :=
    { report_id := report_id
      category := input.category
      latitude := input.latitude
      longitude := input.longitude
      location_name := input.location_name
      yolo_confidence := input.yolo_confidence
      submitted_at := input.timestamp
      validation_status := vd.status
      validation_reason := vd.reason
      confidence_score := vd.confidence
      verified_at := none
      reward_coins := 0 }
  let reports := (report_id, record) :: st.reports
  let queue := if vd.status = "needs-review" then st.validation_queue ++ [report_id]
    else st.validation_queue
  (⟨reports, queue⟩,
   { report_id := report_id
     status := "submitted"
     validation_status := vd.status
     message := get_status_message vd.status })

/-- `ReportProcessor._simulate_validation_completion`: resolve a
`validating` report from its stored confidence score; `choiceFirst`
injects the two-element `random.choice`. -/
def simulate_validation_completion (report : Report) (choiceFirst : Bool) : String :=
  let confidence := report.confidence_score
  if confidence ≥ 0.75 then "verified"
  else if confidence ≥ 0.50 then (if choiceFirst then "verified" else "needs-review")
  else (if choiceFirst then "needs-review" else "rejected")

/-- `ReportProcessor._calculate_reward`: `location_u` injects the
`random.random()` of the 30% underreported-area bonus. -/
def calculate_reward (report : Report) (location_u : ℚ) : ℤ :=
  let base_reward := 10
  let confidence_bonus := if report.confidence_score ≥ 0.8 then 5 else 0
  let priority_categories : List String := ["water", "construction"]
  let category_bonus := if report.category ∈ priority_categories then 5 else 0
  let location_bonus := if location_u < 0.3 then 5 else 0
  base_reward + confidence_bonus + category_bonus + location_bonus

/-- The random draws consumed by one `get_status` call. -/
structure StatusDraws where
  completionChoice : Bool
  location_u : ℚ
deriving DecidableEq, Repr

structure StatusResponse where
  report_id : String
  status : String
  category : String
  location : String
  submitted_at : String
  verified_at : Option String
  confidence_score : ℚ
  validation_reason : String
  reward_coins : ℤ
  message : String
deriving DecidableEq, Repr

/-- The body of `ReportProcessor.get_status` once the record is found:
resolve `validating` (persisting the outcome), then recompute the reward
and stamp `verified_at` whenever the observed status is `verified`.
Returns the response together with the mutated record; `now` injects
`datetime.now().isoformat()`. -/
def get_status_core (report : Report) (d : StatusDraws) (now : String) :
    StatusResponse × Report :=
  let status0 := report.validation_status
  let status := if status0 = "validating"
    then simulate_validation_completion report d.completionChoice else status0
  let report1 := if status0 = "validating"
    then { report with validation_status := status } else report
  let reward := if status = "verified" then calculate_reward report1 d.location_u else 0
  let report2 := if status = "verified"
    then { report1 with reward_coins := reward, verified_at := some now } else report1
  ({ report_id := report.report_id
     status := status
     category := report2.category
     location := report2.location_name
     submitted_at := report2.submitted_at
     verified_at := report2.verified_at
     confidence_score := report2.confidence_score
     validation_reason := report2.validation_reason
     reward_coins := reward
     message := get_status_message status }, report2)

/-- `ReportProcessor.get_status`: `ValueError` on an unknown identifier,
otherwise the core body, with the mutated record written back to the store. -/
def get_status_op (st : ProcState) (report_id : String) (d : StatusDraws)
    (now : String) : Except String (StatusResponse × ProcState) :=
  match findReport st.reports report_id with
  | none => .error ("Report " ++ report_id ++ " not found")
  | some report =>
    let r := get_status_core report d now
    .ok (r.1, ⟨(report_id, r.2) :: st.reports, st.validation_queue⟩)

/-! ## Demonstration fixtures (concrete inputs used by counterexamples and witnesses) -/

/-- A stored report that has already resolved to `verified`, with a high
confidence score and a high-priority category. -/
def demoVerified : Report :=
  { report_id := "RPT-20260101120000-abcd1234", category := "water",
    latitude := 28.61, longitude := 77.21, location_name := "Yamuna Bank",
    yolo_confidence := some 0.9, submitted_at := "2026-01-01T12:00:00",
    validation_status := "verified", validation_reason := "High AI confidence.",
    confidence_score := 0.9, verified_at := none, reward_coins := 0 }

/-- A stored report still in the `validating` state. -/
def demoValidating : Report :=
  { report_id := "RPT-20260101120000-abcd1235", category := "construction",
    latitude := 19.07, longitude := 72.87, location_name := "Dump Site",
    yolo_confidence := some 0.9, submitted_at := "2026-01-01T12:00:00",
    validation_status := "validating", validation_reason := "High AI confidence.",
    confidence_score := 0.9, verified_at := none, reward_coins := 0 }

/-- A stored report that has resolved to `rejected`. -/
def demoRejected : Report :=
  { report_id := "RPT-20260101120000-abcd1236", category := "garbage",
    latitude := 12.97, longitude := 77.59, location_name := "Street",
    yolo_confidence := some 0.2, submitted_at := "2026-01-01T12:00:00",
    validation_status := "rejected", validation_reason := "Low AI confidence.",
    confidence_score := 0.2, verified_at := none, reward_coins := 0 }

/-- A well-formed submission payload in the high confidence band. -/
def demoInput : SubmissionInput :=
  { category := "construction", latitude := 28.6, longitude := 77.2,
    location_name := "Site", yolo_confidence := some 0.87,
    timestamp := "2026-02-16T10:30:00" }

/-! ## Helper lemmas -/

/-- Closed form of `_calculate_reward`: base 10 plus the three 5-coin bonuses. -/
lemma calculate_reward_eq (report : Report) (u : ℚ) :
    calculate_reward report u =
      10 + (if 0.8 ≤ report.confidence_score then 5 else 0)
         + (if report.category = "water" ∨ report.category = "construction" then 5 else 0)
         + (if u < 0.3 then 5 else 0) := by
  unfold calculate_reward
  simp [ge_iff_le, List.mem_cons]

/-- The reward returned by the `get_status` body: the bonus formula when the
observed status is `verified`, zero otherwise. -/
lemma core_reward (report : Report) (d : StatusDraws) (now : String) :
    (get_status_core report d now).1.reward_coins =
      if (get_status_core report d now).1.status = "verified"
      then 10 + (if 0.8 ≤ report.confidence_score then 5 else 0)
         + (if report.category = "water" ∨ report.category = "construction" then 5 else 0)
         + (if d.location_u < 0.3 then 5 else 0)
      else 0 := by
  simp only [get_status_core]
  split_ifs <;> simp_all [calculate_reward_eq] <;>
    (try split_ifs) <;> first | rfl | linarith | norm_num

/-- Case analysis of the status produced by `_make_validation_decision`. -/
lemma decision_cases (category : String) (conf lat lng : ℚ) (d : DecisionDraws) :
    (make_validation_decision category conf lat lng d).status ≠ "verified" ∧
    ((make_validation_decision category conf lat lng d).status = "validating" ∨
      (make_validation_decision category conf lat lng d).status = "needs-review" ∨
      (make_validation_decision category conf lat lng d).status = "rejected") ∧
    (0.75 ≤ conf → d.u < 0.7 → d.choiceFirst = true →
      (make_validation_decision category conf lat lng d).status = "validating") := by
  unfold make_validation_decision confidence_thresholds
  simp only
  split_ifs <;> simp_all <;> linarith

/-- The record stored by `process_submission` under identifier `id`. -/
def submittedRecord (id : String) (input : SubmissionInput) (d : DecisionDraws) : Report :=
  { report_id := id, category := input.category, latitude := input.latitude,
    longitude := input.longitude, location_name := input.location_name,
    yolo_confidence := input.yolo_confidence, submitted_at := input.timestamp,
    validation_status := (make_validation_decision input.category
      (input.yolo_confidence.getD 0.0) input.latitude input.longitude d).status,
    validation_reason := (make_validation_decision input.category
      (input.yolo_confidence.getD 0.0) input.latitude input.longitude d).reason,
    confidence_score := (make_validation_decision input.category
      (input.yolo_confidence.getD 0.0) input.latitude input.longitude d).confidence,
    verified_at := none, reward_coins := 0 }

/-! ## Claim theorems -/

/-- Claim C7: for every city configuration, every timestamp (hour and
weekday) and every Gaussian noise draw, the synthesized AQI value lies in
`[0, 500]` inclusive. -/
theorem aqi_always_in_range (city_data : CityConfig) (hour day_of_week : ℕ) (noise : ℝ) :
    0 ≤ calculate_realistic_aqi city_data hour day_of_week noise ∧
    calculate_realistic_aqi city_data hour day_of_week noise ≤ 500 := by
  unfold calculate_realistic_aqi
  exact ⟨le_max_left 0 _, max_le (by norm_num) (min_le_left _ _)⟩

/-- Claim C7 witness: the bounds at a concrete configuration (Delhi on a
Sunday at 9 AM with zero noise). -/
theorem aqi_always_in_range_witness :
    0 ≤ calculate_realistic_aqi ⟨28.6139, 77.2090, 250, 50, 1.3⟩ 9 6 0 ∧
    calculate_realistic_aqi ⟨28.6139, 77.2090, 250, 50, 1.3⟩ 9 6 0 ≤ 500 :=
  aqi_always_in_range ⟨28.6139, 77.2090, 250, 50, 1.3⟩ 9 6 0

/-- Claim C8: the severity mapping is monotonic in the rank order
good < moderate < unhealthy-sensitive < unhealthy < very-unhealthy <
hazardous, with band boundaries at 50, 100, 150, 200 and 300. -/
theorem severity_monotone :
    (∀ a b : ℚ, a < b → (get_severity a).rank ≤ (get_severity b).rank) ∧
    (∀ a : ℚ,
      (get_severity a = .good ↔ a ≤ 50) ∧
      (get_severity a = .moderate ↔ 50 < a ∧ a ≤ 100) ∧
      (get_severity a = .unhealthySensitive ↔ 100 < a ∧ a ≤ 150) ∧
      (get_severity a = .unhealthy ↔ 150 < a ∧ a ≤ 200) ∧
      (get_severity a = .veryUnhealthy ↔ 200 < a ∧ a ≤ 300) ∧
      (get_severity a = .hazardous ↔ 300 < a)) := by
  constructor
  · intro a b hab
    unfold get_severity
    split_ifs <;> simp [Severity.rank] <;> linarith
  · intro a
    unfold get_severity
    split_ifs <;>
      refine ⟨?_, ?_, ?_, ?_, ?_, ?_⟩ <;>
      simp <;>
      first
        | linarith
        | (constructor <;> linarith)
        | (intro h; linarith)

/-- Claim C8 witness: monotonicity at the concrete pair 30 < 120. -/
theorem severity_monotone_witness :
    ((30 : ℚ) < 120) ∧ (get_severity 30).rank ≤ (get_severity 120).rank :=
  ⟨by norm_num, severity_monotone.1 30 120 (by norm_num)⟩

/-- Claim C6: for every configured city, `get_history` with range "24h"
returns exactly 25 points and with "7d" exactly 8 points, and any other
range string fails with the invalid-range error. -/
theorem history_point_counts (city : String) (aqiAt : ℕ → ℚ)
    (h : (cities.find? (fun p => p.1 == city)).isNone = false) :
    (∃ pts, get_history city "24h" aqiAt = .ok pts ∧ pts.length = 25) ∧
    (∃ pts, get_history city "7d" aqiAt = .ok pts ∧ pts.length = 8) ∧
    (∀ r : String, r ≠ "24h" → r ≠ "7d" →
      get_history city r aqiAt = .error ("Invalid time range: " ++ r ++ ". Use 24h or 7d")) := by
  have h24 : get_history city "24h" aqiAt =
      .ok ((rangeDesc 24).map (fun k => ⟨k, pyInt (aqiAt k)⟩)) := by
    simp [get_history, h]
  have h7 : get_history city "7d" aqiAt =
      .ok ((rangeDesc 7).map (fun k => ⟨k, pyInt (aqiAt k)⟩)) := by
    simp [get_history, h]
  refine ⟨⟨_, h24, by simp [rangeDesc]⟩, ⟨_, h7, by simp [rangeDesc]⟩, ?_⟩
  intro r h1 h2
  simp [get_history, h, h1, h2]

/-- Claim C6 witness: the counts for Delhi, and the invalid-range failure
for the range string "30m". -/
theorem history_point_counts_witness :
    (∃ pts, get_history "Delhi" "24h" (fun _ => 0) = .ok pts ∧ pts.length = 25) ∧
    get_history "Delhi" "30m" (fun _ => 0) =
      .error ("Invalid time range: " ++ "30m" ++ ". Use 24h or 7d") :=
  ⟨(history_point_counts "Delhi" (fun _ => 0) rfl).1,
   (history_point_counts "Delhi" (fun _ => 0) rfl).2.2 "30m" (by decide) (by decide)⟩

/-- Claim C9: `get_all_cities` returns one snapshot per configured city
(its length matches and it is a permutation of the per-city snapshots in
insertion order), the result is sorted by AQI descending, and any two
snapshots with equal AQI keep their insertion order (sort stability). -/
theorem all_cities_sorted_desc (cs : List (String × CityConfig)) (aqis : List ℚ)
    (h : aqis.length = cs.length) :
    (get_all_cities cs aqis).length = cs.length ∧
    (get_all_cities cs aqis).Perm ((cs.zip aqis).map snapshotOf) ∧
    (get_all_cities cs aqis).Pairwise (fun a b => b.aqi ≤ a.aqi) ∧
    (∀ a b : CitySnapshot, a.aqi = b.aqi →
      [a, b].Sublist ((cs.zip aqis).map snapshotOf) →
      [a, b].Sublist (get_all_cities cs aqis)) := by
  have htrans : ∀ a b c : CitySnapshot, (decide (b.aqi ≤ a.aqi)) = true →
      (decide (c.aqi ≤ b.aqi)) = true → (decide (c.aqi ≤ a.aqi)) = true := by
    intro a b c hab hbc
    simp only [decide_eq_true_eq] at *
    exact le_trans hbc hab
  have htot : ∀ a b : CitySnapshot,
      ((decide (b.aqi ≤ a.aqi)) || (decide (a.aqi ≤ b.aqi))) = true := by
    intro a b
    simp only [Bool.or_eq_true, decide_eq_true_eq]
    exact le_total b.aqi a.aqi
  refine ⟨?_, ?_, ?_, ?_⟩
  · simp [get_all_cities, List.length_mergeSort, h]
  · exact List.mergeSort_perm _ _
  · have hs := List.sorted_mergeSort htrans htot ((cs.zip aqis).map snapshotOf)
    exact hs.imp (fun hab => by simpa using hab)
  · intro a b hab hsub
    exact List.mergeSort_stable_pair htrans htot (by simp [hab]) hsub

/-- Claim C9 witness: on the configured city list with ten injected AQI
values (containing ties) the output has one snapshot per city. -/
theorem all_cities_sorted_desc_witness :
    (get_all_cities cities [100, 150, 150, 110, 100, 130, 140, 160, 200, 170]).length =
      cities.length :=
  (all_cities_sorted_desc cities [100, 150, 150, 110, 100, 130, 140, 160, 200, 170] rfl).1

/-- Claim C1: a `get_status` call on a stored report whose status is
`validating` resolves it in that call from the stored confidence score
(with the injected `random.choice` draw), persists the resolved status
into the record, and the status after the call is never `validating`:
confidence at least 0.75 yields `verified`; in `[0.50, 0.75)` the draw
chooses between `verified` and `needs-review`; below 0.50 it chooses
between `needs-review` and `rejected`. -/
theorem getStatus_resolves_validating (report : Report) (d : StatusDraws) (now : String)
    (h : report.validation_status = "validating") :
    ((get_status_core report d now).1.status =
      simulate_validation_completion report d.completionChoice) ∧
    ((get_status_core report d now).2.validation_status =
      (get_status_core report d now).1.status) ∧
    ((get_status_core report d now).1.status ≠ "validating") ∧
    (0.75 ≤ report.confidence_score →
      (get_status_core report d now).1.status = "verified") ∧
    (0.50 ≤ report.confidence_score → report.confidence_score < 0.75 →
      (get_status_core report d now).1.status =
        (if d.completionChoice then "verified" else "needs-review")) ∧
    (report.confidence_score < 0.50 →
      (get_status_core report d now).1.status =
        (if d.completionChoice then "needs-review" else "rejected")) := by
  have hcore1 : (get_status_core report d now).1.status =
      simulate_validation_completion report d.completionChoice := by
    simp [get_status_core, h]
  have hcore2 : (get_status_core report d now).2.validation_status =
      simulate_validation_completion report d.completionChoice := by
    simp only [get_status_core, h]
    simp only [if_pos]
    split <;> rfl
  refine ⟨hcore1, by rw [hcore1, hcore2], ?_, ?_, ?_, ?_⟩
  · rw [hcore1]
    unfold simulate_validation_completion
    split_ifs <;> simp
    all_goals split_ifs <;> simp
  · intro h75
    rw [hcore1]
    simp [simulate_validation_completion, h75]
  · intro h50 h75
    rw [hcore1]
    simp [simulate_validation_completion, h50, not_le.mpr h75]
  · intro h50
    rw [hcore1]
    have h1 : ¬ (0.75 : ℚ) ≤ report.confidence_score := by
      intro hh
      norm_num at hh h50
      linarith
    have h2 : ¬ (0.50 : ℚ) ≤ report.confidence_score := not_le.mpr h50
    simp [simulate_validation_completion, h1, h2]

/-- Claim C1 witness: a `validating` report with confidence 0.9 resolves to
`verified` and the post-call status is not `validating`. -/
theorem getStatus_resolves_validating_witness :
    (get_status_core demoValidating ⟨true, 0⟩ "t").1.status ≠ "validating" ∧
    (get_status_core demoValidating ⟨true, 0⟩ "t").1.status = "verified" :=
  ⟨(getStatus_resolves_validating demoValidating ⟨true, 0⟩ "t" rfl).2.2.1,
   (getStatus_resolves_validating demoValidating ⟨true, 0⟩ "t" rfl).2.2.2.1
     (by norm_num [demoValidating])⟩

/-- Claim C2 counterexample: on a stored `verified` report (category
`water`, confidence 0.9) the first `get_status` call returns reward 25
(bonus draw hits) and stamps `verified_at` with the call time, while the
second call on the mutated record returns reward 20 (bonus draw misses)
and overwrites `verified_at` — so the reward is not computed only once and
the verification timestamp is not set only the first time. -/
theorem getStatus_reward_reroll_cex :
    (get_status_core demoVerified ⟨true, 0⟩ "t1").1.status = "verified" ∧
    (get_status_core demoVerified ⟨true, 0⟩ "t1").1.reward_coins = 25 ∧
    (get_status_core demoVerified ⟨true, 0⟩ "t1").2.verified_at = some "t1" ∧
    (get_status_core (get_status_core demoVerified ⟨true, 0⟩ "t1").2
      ⟨true, 0.5⟩ "t2").1.reward_coins = 20 ∧
    (get_status_core (get_status_core demoVerified ⟨true, 0⟩ "t1").2
      ⟨true, 0.5⟩ "t2").2.verified_at = some "t2" ∧
    (25 : ℤ) ≠ 20 ∧ some "t2" ≠ some "t1" := by
  refine ⟨?_, ?_, ?_, ?_, ?_, by decide, by decide⟩ <;>
    norm_num [get_status_core, demoVerified, calculate_reward, List.mem_cons,
      simulate_validation_completion]

/-- Claim C2 (amended): on an already-resolved report `get_status` always
returns the stored status and leaves it unchanged; but when that status is
`verified` the reward is recomputed and re-persisted on every call (with a
fresh bonus draw) and `verified_at` is overwritten with the current time on
every call; for a non-`verified` resolved status the call is pure and the
reward is 0. -/
theorem getStatus_resolved_report (report : Report) (d : StatusDraws) (now : String)
    (h : report.validation_status ≠ "validating") :
    ((get_status_core report d now).1.status = report.validation_status) ∧
    ((get_status_core report d now).2.validation_status = report.validation_status) ∧
    (report.validation_status = "verified" →
      (get_status_core report d now).1.reward_coins = calculate_reward report d.location_u ∧
      (get_status_core report d now).2.reward_coins = calculate_reward report d.location_u ∧
      (get_status_core report d now).2.verified_at = some now) ∧
    (report.validation_status ≠ "verified" →
      (get_status_core report d now).1.reward_coins = 0 ∧
      (get_status_core report d now).2 = report) := by
  unfold get_status_core
  simp only [h, if_neg, if_false]
  by_cases hv : report.validation_status = "verified"
  · simp [hv]
  · simp [hv, h]

/-- Claim C2 witness: the amended behaviour at the concrete `verified`
report used by the counterexample. -/
theorem getStatus_resolved_report_witness :
    (get_status_core demoVerified ⟨true, 0⟩ "t1").1.status = demoVerified.validation_status ∧
    (get_status_core demoVerified ⟨true, 0⟩ "t1").2.verified_at = some "t1" :=
  ⟨(getStatus_resolved_report demoVerified ⟨true, 0⟩ "t1" (by decide)).1,
   ((getStatus_resolved_report demoVerified ⟨true, 0⟩ "t1" (by decide)).2.2.1 rfl).2.2⟩

/-- Claim C3 (divergence): with the draws injected, the status produced by
`_make_validation_decision` in the high band (confidence at least 0.75) is
`validating` — the verified path — exactly on the event
`u < 0.7 ∧ choice = first`, whose probability under a uniform `u` and a
fair two-way choice is `0.7 * 0.5 = 0.35`, not the documented 0.7; in the
low band (confidence below 0.50) the status is `needs-review` exactly on
`u < 0.6 ∧ choice = first` (probability 0.3, not 0.6) and `rejected`
otherwise (probability 0.7, not 0.4).  The medium band always yields
`needs-review` as documented. -/
theorem decision_band_outcome_events (category : String) (conf lat lng : ℚ)
    (d : DecisionDraws) :
    (0.75 ≤ conf →
      (((make_validation_decision category conf lat lng d).status = "validating") ↔
        (d.u < 0.7 ∧ d.choiceFirst = true)) ∧
      (((make_validation_decision category conf lat lng d).status = "needs-review") ↔
        ¬(d.u < 0.7 ∧ d.choiceFirst = true))) ∧
    (0.50 ≤ conf → conf < 0.75 →
      (make_validation_decision category conf lat lng d).status = "needs-review") ∧
    (conf < 0.50 →
      (((make_validation_decision category conf lat lng d).status = "needs-review") ↔
        (d.u < 0.6 ∧ d.choiceFirst = true)) ∧
      (((make_validation_decision category conf lat lng d).status = "rejected") ↔
        ¬(d.u < 0.6 ∧ d.choiceFirst = true))) := by
  unfold make_validation_decision confidence_thresholds
  simp only
  refine ⟨?_, ?_, ?_⟩
  · intro h75
    split_ifs <;> simp_all <;> linarith
  · intro h50 h75
    split_ifs <;> simp_all <;> linarith
  · intro h50
    have h1 : ¬ (0.75 : ℚ) ≤ conf := by norm_num at h50 ⊢; linarith
    have h2 : ¬ (0.50 : ℚ) ≤ conf := not_le.mpr h50
    split_ifs <;> simp_all <;> linarith

/-- Claim C3 witness: the high-band event characterization at the concrete
draws `u = 0.5`, first choice. -/
theorem decision_band_outcome_events_witness :
    ((make_validation_decision "garbage" 0.8 0 0 ⟨0.5, true, 1⟩).status = "validating" ↔
      ((0.5 : ℚ) < 0.7 ∧ true = true)) :=
  ((decision_band_outcome_events "garbage" 0.8 0 0 ⟨0.5, true, 1⟩).1 (by norm_num)).1

/-- Claim C4: the reward returned by a `get_status` call is 0 whenever the
observed status is not `verified`; when it is `verified` the reward equals
10 plus 5 for stored confidence at least 0.8, plus 5 for a `water` or
`construction` category, plus 5 when the underreported-area draw hits, and
is therefore at least 10. -/
theorem reward_calculation_rule (report : Report) (d : StatusDraws) (now : String) :
    ((get_status_core report d now).1.status ≠ "verified" →
      (get_status_core report d now).1.reward_coins = 0) ∧
    ((get_status_core report d now).1.status = "verified" →
      (get_status_core report d now).1.reward_coins =
        10 + (if 0.8 ≤ report.confidence_score then 5 else 0)
           + (if report.category = "water" ∨ report.category = "construction" then 5 else 0)
           + (if d.location_u < 0.3 then 5 else 0) ∧
      10 ≤ (get_status_core report d now).1.reward_coins) := by
  constructor
  · intro hne
    rw [core_reward, if_neg hne]
  · intro hv
    rw [core_reward, if_pos hv]
    refine ⟨rfl, ?_⟩
    split_ifs <;> norm_num

/-- Claim C4 witness: zero reward for a `rejected` report and a reward of
at least 10 for a `verified` one. -/
theorem reward_calculation_rule_witness :
    (get_status_core demoRejected ⟨true, 0⟩ "t").1.reward_coins = 0 ∧
    10 ≤ (get_status_core demoVerified ⟨true, 1⟩ "t").1.reward_coins :=
  ⟨(reward_calculation_rule demoRejected ⟨true, 0⟩ "t").1 (by decide),
   ((reward_calculation_rule demoVerified ⟨true, 1⟩ "t").2 (by decide)).2⟩

/-- Claim C5: a submission stores its identifier in the report collection,
so a `get_status` call with the identifier returned by the submission
succeeds, and `get_status` fails with the not-found error exactly for
identifiers absent from the collection. -/
theorem submit_then_getStatus_never_not_found (st : ProcState) (id : String)
    (input : SubmissionInput) (d : DecisionDraws) (d2 : StatusDraws) (now : String) :
    ((process_submission st id input d).2.report_id = id) ∧
    ((findReport (process_submission st id input d).1.reports id).isSome = true) ∧
    (∃ x, get_status_op (process_submission st id input d).1 id d2 now = .ok x) ∧
    (∀ (s : ProcState) (rid : String),
      (∃ msg, get_status_op s rid d2 now = .error msg) ↔ findReport s.reports rid = none) := by
  have hfind : ∀ r : Report, findReport ((id, r) :: st.reports) id = some r := by
    intro r
    simp [findReport, List.find?]
  refine ⟨rfl, ?_, ?_, ?_⟩
  · simp [process_submission, hfind]
  · simp [process_submission, get_status_op, hfind]
  · intro s rid
    unfold get_status_op
    cases hf : findReport s.reports rid <;> simp [hf]

/-- Claim C10: the record stored at submission time never has status
`verified`: it is `validating`, `needs-review` or `rejected`, and whenever
the raw decision comes out `verified` (high band, branch draw below 0.7,
choice picks the first element) the stored status is `validating`. -/
theorem submission_status_never_verified (st : ProcState) (id : String)
    (input : SubmissionInput) (d : DecisionDraws) :
    ∃ r : Report,
      findReport (process_submission st id input d).1.reports id = some r ∧
      r.validation_status ≠ "verified" ∧
      (r.validation_status = "validating" ∨ r.validation_status = "needs-review" ∨
        r.validation_status = "rejected") ∧
      (0.75 ≤ input.yolo_confidence.getD 0.0 → d.u < 0.7 → d.choiceFirst = true →
        r.validation_status = "validating") := by
  refine ⟨submittedRecord id input d, ?_,
    (decision_cases input.category (input.yolo_confidence.getD 0.0)
      input.latitude input.longitude d).1,
    (decision_cases input.category (input.yolo_confidence.getD 0.0)
      input.latitude input.longitude d).2.1,
    (decision_cases input.category (input.yolo_confidence.getD 0.0)
      input.latitude input.longitude d).2.2⟩
  simp [process_submission, findReport, List.find?, submittedRecord]

/-- Claim C10 witness: a high-band submission (confidence 0.87) whose draws
take the verified path is stored with status `validating`. -/
theorem submission_status_never_verified_witness :
    ∃ r : Report,
      findReport (process_submission ⟨[], []⟩ "RPT-1" demoInput ⟨0.5, true, 1⟩).1.reports
        "RPT-1" = some r ∧ r.validation_status = "validating" := by
  obtain ⟨r, hr, hne, hmem, himp⟩ :=
    submission_status_never_verified ⟨[], []⟩ "RPT-1" demoInput ⟨0.5, true, 1⟩
  exact ⟨r, hr, himp (by norm_num [demoInput]) (by norm_num) rfl⟩
